import Mathlib

/-!
Shallow embedding of the call-signaling server (src/server.js): the
accept-call coordination core (Firebase transaction on
`calls/{uid}/activeCall`, stop-ringing fan-out over
`calls/{uid}/devices`) and the `/sendRingingNotification` endpoint.

JSON string fields are modelled as `Option String`; JavaScript
truthiness of a string field (`!x` is true for `undefined`, `null` and
`""`) is modelled by comparing `strVal` with `""`.
-/

namespace Signal

/-- JavaScript access to a possibly-absent string field: an absent field
reads as the falsy `""` (both `undefined` and `""` are falsy in the
`!x` checks of server.js). -/
def strVal (o : Option String) : String := o.getD ""

/-- The call record stored at `calls/{uid}/activeCall`.  `extra` stands
for any further fields the record object may carry; server.js never
touches them (it only assigns `status` and `acceptedByDeviceId`). -/
structure CallRecord where
  callId : String
  status : String
  acceptedByDeviceId : Option String
  extra : List (String × String)
deriving Repr, DecidableEq

/-- One entry of the device directory `calls/{uid}/devices`: at least an
`fcmToken` field (possibly absent), plus any further fields. -/
structure DeviceEntry where
  fcmToken : Option String
  extra : List (String × String)
deriving Repr, DecidableEq

/-- Result object of a Firebase transaction: `committed` flag and the
snapshot value observed after the attempt (post-commit value on commit,
the unchanged current value on abort). -/
structure TransactionResult where
  committed : Bool
  snapshot : Option CallRecord
deriving Repr, DecidableEq

/-- `ref.transaction(update)` against a store holding `store`:
if the update callback returns a value the transaction commits to it;
if the callback returns `undefined` (here `none`) the transaction
aborts and the store is unchanged.  Returns the result object and the
post-transaction store contents. -/
def runTransaction (update : Option CallRecord → Option CallRecord)
    (store : Option CallRecord) : TransactionResult × Option CallRecord :=
  match update store with
  | some newData => (⟨true, some newData⟩, some newData)
  | none => (⟨false, store⟩, store)

/-- The transaction callback of `/acceptCall` (server.js lines 106-124):
abort when the record is absent or its `callId` differs from the
requested one, abort when `status` is not `"ringing"`, otherwise commit
with `status := "in_progress"` and `acceptedByDeviceId := requester`. -/
def acceptTransactionCallback (callId acceptedByDeviceId : String) :
    Option CallRecord → Option CallRecord
  | none => none
  | some currentData =>
    if currentData.callId ≠ callId then none
    else if currentData.status ≠ "ringing" then none
    else some { currentData with
                  status := "in_progress",
                  acceptedByDeviceId := some acceptedByDeviceId }

/-- The loop of server.js lines 142-148: collect the `fcmToken` of every
directory entry whose key differs from the accepting device and whose
`fcmToken` is truthy. -/
def fcmTokensToNotify (allDevices : List (String × DeviceEntry))
    (acceptedByDeviceId : String) : List String :=
  allDevices.filterMap fun p =>
    if p.1 ≠ acceptedByDeviceId ∧ strVal p.2.fcmToken ≠ "" then p.2.fcmToken
    else none

/-- Target tokens of the stop-ringing fan-out; an absent directory
(`devicesSnapshot.val()` is `null`) yields no targets. -/
def stopRingingTargets (devices : Option (List (String × DeviceEntry)))
    (acceptedByDeviceId : String) : List String :=
  match devices with
  | none => []
  | some allDevices => fcmTokensToNotify allDevices acceptedByDeviceId

/-- The `data` payload of the `ring_ended` multicast message
(server.js lines 151-156). -/
structure RingEndedData where
  type : String
  callId : String
  acceptedByDeviceId : String
deriving Repr, DecidableEq

/-- A `ring_ended` multicast message: payload plus target tokens. -/
structure RingEndedMessage where
  data : RingEndedData
  tokens : List String
deriving Repr, DecidableEq

/-- HTTP response of `/acceptCall`. -/
inductive AcceptResponse where
  | badRequest (error : String)
  | conflict (error : String)
  | acceptOk (message callId token channel acceptedByDeviceId : String)
  | serverError (error : String)
deriving Repr, DecidableEq

/-- HTTP status code of an `/acceptCall` response. -/
def AcceptResponse.statusCode : AcceptResponse → Nat
  | .badRequest _ => 400
  | .conflict _ => 409
  | .acceptOk _ _ _ _ _ => 200
  | .serverError _ => 500

/-- Request body of `/acceptCall`; each field may be absent. -/
structure AcceptRequest where
  callId : Option String
  acceptedByDeviceId : Option String
  currentUid : Option String
  token : Option String
  channel : Option String
deriving Repr, DecidableEq

/-- The validation of server.js line 99: all five fields truthy. -/
def acceptFieldsPresent (req : AcceptRequest) : Bool :=
  !(strVal req.callId == "") && !(strVal req.acceptedByDeviceId == "") &&
  !(strVal req.currentUid == "") && !(strVal req.token == "") &&
  !(strVal req.channel == "")

/-- Environment one `/acceptCall` request runs against: the user's
call record, the device directory, and fault-injection flags for the
two external calls after the transaction (the directory read
`devicesRef.once`, and `sendEachForMulticast` for `ring_ended`). -/
structure AcceptEnv where
  activeCall : Option CallRecord
  devices : Option (List (String × DeviceEntry))
  directoryReadFails : Bool
  dispatchThrows : Bool
deriving Repr, DecidableEq

/-- Observable outcome of one `/acceptCall` request: the HTTP response,
the post-state of the store paths, and which side effects happened. -/
structure AcceptOutcome where
  response : AcceptResponse
  activeCall : Option CallRecord
  devices : Option (List (String × DeviceEntry))
  transitionAttempted : Bool
  committed : Bool
  directoryRead : Bool
  dispatched : Option RingEndedMessage
  dispatchThrewSwallowed : Bool
deriving Repr, DecidableEq

/-- Error message of the conflict response after an aborted transaction
(server.js lines 127-133): the aborted result's snapshot is re-read;
a record with `status == "in_progress"` blames the other device,
anything else reports an inactive or invalid call. -/
def conflictMessage : Option CallRecord → String
  | some rec =>
    if rec.status = "in_progress" then "Call already accepted by another device."
    else "Call no longer active or invalid call ID."
  | none => "Call no longer active or invalid call ID."

/-- The `/acceptCall` handler after validation succeeded
(server.js lines 103-185), with the five field values in hand.
The inner try/catch around the `ring_ended` dispatch only logs a
failure: `dispatchThrewSwallowed` records it without influencing the
response.  A failing directory read is only caught by the outer
try/catch and becomes a 500 even though the transaction committed. -/
def acceptCallValidated (callId acceptedByDeviceId token channel : String)
    (env : AcceptEnv) : AcceptOutcome :=
  let r := runTransaction (acceptTransactionCallback callId acceptedByDeviceId) env.activeCall
  if r.1.committed then
    if env.directoryReadFails then
      { response := .serverError "Internal server error during call acceptance",
        activeCall := r.2, devices := env.devices,
        transitionAttempted := true, committed := true,
        directoryRead := true, dispatched := none,
        dispatchThrewSwallowed := false }
    else
      let targets := stopRingingTargets env.devices acceptedByDeviceId
      let msg : Option RingEndedMessage :=
        if targets.isEmpty then none
        else some { data := { type := "ring_ended", callId := callId,
                              acceptedByDeviceId := acceptedByDeviceId },
                    tokens := targets }
      { response := .acceptOk "Call accepted successfully" callId token channel acceptedByDeviceId,
        activeCall := r.2, devices := env.devices,
        transitionAttempted := true, committed := true,
        directoryRead := true, dispatched := msg,
        dispatchThrewSwallowed := msg.isSome && env.dispatchThrows }
  else
    { response := .conflict (conflictMessage r.1.snapshot),
      activeCall := r.2, devices := env.devices,
      transitionAttempted := true, committed := false,
      directoryRead := false, dispatched := none,
      dispatchThrewSwallowed := false }

/-- The full `/acceptCall` handler (server.js lines 95-186): a missing
field returns 400 before anything else happens. -/
def acceptCall (req : AcceptRequest) (env : AcceptEnv) : AcceptOutcome :=
  if acceptFieldsPresent req then
    acceptCallValidated (strVal req.callId) (strVal req.acceptedByDeviceId)
      (strVal req.token) (strVal req.channel) env
  else
    { response := .badRequest "callId, acceptedByDeviceId, currentUid, token, and channel are all required.",
      activeCall := env.activeCall, devices := env.devices,
      transitionAttempted := false, committed := false,
      directoryRead := false, dispatched := none,
      dispatchThrewSwallowed := false }

/-- The `data` payload of a ringing multicast message
(server.js lines 53-60). -/
structure RingingData where
  type : String
  callerId : String
  callId : String
  channel : String
  token : String
deriving Repr, DecidableEq

/-- A ringing multicast message: payload plus target tokens. -/
structure RingingMessage where
  data : RingingData
  tokens : List String
deriving Repr, DecidableEq

/-- Request body of `/sendRingingNotification`.  `fcmTokens` is `none`
when the field is absent or not an array. -/
structure RingingRequest where
  fcmTokens : Option (List String)
  callerId : Option String
  callId : Option String
  type : Option String
  channel : Option String
  token : Option String
deriving Repr, DecidableEq

/-- HTTP response of `/sendRingingNotification`; the 200 body carries
the aggregate counts and the per-token outcomes (`details`), each
outcome abstracted to its success flag. -/
inductive RingingResponse where
  | badRequest (error : String)
  | ringingOk (message : String) (successCount failureCount : Nat) (details : List Bool)
  | serverError (error : String) (details : String)
deriving Repr, DecidableEq

/-- HTTP status code of a `/sendRingingNotification` response. -/
def RingingResponse.statusCode : RingingResponse → Nat
  | .badRequest _ => 400
  | .ringingOk _ _ _ _ => 200
  | .serverError _ _ => 500

/-- Outcome of one `/sendRingingNotification` request: the response and
the multicast message handed to the dispatcher (`none` when validation
failed before dispatch). -/
structure RingingOutcome where
  response : RingingResponse
  dispatched : Option RingingMessage
deriving Repr, DecidableEq

/-- Result of `sendEachForMulticast`: either the per-token success
flags, or a thrown error (its message). -/
def DispatchResult := Except String (List Bool)

/-- The `/sendRingingNotification` handler (server.js lines 42-92):
validate `fcmTokens` (present, array, non-empty), validate the five
scalar fields, then dispatch; per-token failures are reported as data
in a 200 response, only a dispatcher throw becomes a 500. -/
def sendRingingNotification (req : RingingRequest)
    (dispatch : DispatchResult) : RingingOutcome :=
  match req.fcmTokens with
  | none =>
    { response := .badRequest "fcmTokens (array) is required and must not be empty",
      dispatched := none }
  | some fcmTokens =>
    if fcmTokens.isEmpty then
      { response := .badRequest "fcmTokens (array) is required and must not be empty",
        dispatched := none }
    else if strVal req.callerId = "" ∨ strVal req.callId = "" ∨ strVal req.type = "" ∨
        strVal req.channel = "" ∨ strVal req.token = "" then
      { response := .badRequest "callerId, callId, type, channel, and token are all required for a ringing notification.",
        dispatched := none }
    else
      let msg : RingingMessage :=
        { data := { type := strVal req.type, callerId := strVal req.callerId,
                    callId := strVal req.callId, channel := strVal req.channel,
                    token := strVal req.token },
          tokens := fcmTokens }
      match dispatch with
      | .ok responses =>
        { response := .ringingOk "Ringing notifications sent successfully"
            (responses.count true) (responses.count false) responses,
          dispatched := some msg }
      | .error e =>
        { response := .serverError "Failed to send ringing notifications" e,
          dispatched := some msg }

lemma runTransaction_of_some {update : Option CallRecord → Option CallRecord}
    {store : Option CallRecord} {d : CallRecord} (h : update store = some d) :
    runTransaction update store = (⟨true, some d⟩, some d) := by
  simp [runTransaction, h]

lemma runTransaction_of_none {update : Option CallRecord → Option CallRecord}
    {store : Option CallRecord} (h : update store = none) :
    runTransaction update store = (⟨false, store⟩, store) := by
  simp [runTransaction, h]

lemma callback_commits {callId dev : String} {rec : CallRecord}
    (h1 : rec.callId = callId) (h2 : rec.status = "ringing") :
    acceptTransactionCallback callId dev (some rec) =
      some { rec with status := "in_progress", acceptedByDeviceId := some dev } := by
  simp [acceptTransactionCallback, h1, h2]

lemma callback_eq_some {callId dev : String} {store : Option CallRecord} {d : CallRecord}
    (h : acceptTransactionCallback callId dev store = some d) :
    ∃ rec, store = some rec ∧ rec.callId = callId ∧ rec.status = "ringing" ∧
      d = { rec with status := "in_progress", acceptedByDeviceId := some dev } := by
  cases store with
  | none => simp [acceptTransactionCallback] at h
  | some rec =>
    by_cases h1 : rec.callId = callId
    · by_cases h2 : rec.status = "ringing"
      · refine ⟨rec, rfl, h1, h2, ?_⟩
        rw [callback_commits h1 h2] at h
        exact (Option.some_inj.mp h).symm
      · simp [acceptTransactionCallback, h2] at h
    · simp [acceptTransactionCallback, h1] at h

lemma callback_eq_none_iff {callId dev : String} {store : Option CallRecord} :
    acceptTransactionCallback callId dev store = none ↔
      store = none ∨ ∃ rec, store = some rec ∧ (rec.callId ≠ callId ∨ rec.status ≠ "ringing") := by
  cases store with
  | none => simp [acceptTransactionCallback]
  | some rec =>
    by_cases h1 : rec.callId = callId
    · by_cases h2 : rec.status = "ringing"
      · simp [callback_commits h1 h2, h1, h2]
      · simp [acceptTransactionCallback, h1, h2]
    · simp [acceptTransactionCallback, h1]

lemma mem_fcmTokensToNotify {allDevices : List (String × DeviceEntry)}
    {acceptedBy t : String} :
    t ∈ fcmTokensToNotify allDevices acceptedBy ↔
      ∃ p ∈ allDevices, p.1 ≠ acceptedBy ∧ p.2.fcmToken = some t ∧ t ≠ "" := by
  simp only [fcmTokensToNotify, List.mem_filterMap]
  constructor
  · rintro ⟨p, hp, hf⟩
    by_cases hcond : p.1 ≠ acceptedBy ∧ strVal p.2.fcmToken ≠ ""
    · rw [if_pos hcond] at hf
      refine ⟨p, hp, hcond.1, hf, ?_⟩
      have h2 := hcond.2
      rw [hf] at h2
      simpa [strVal] using h2
    · rw [if_neg hcond] at hf
      exact absurd hf (by simp)
  · rintro ⟨p, hp, h1, h2, h3⟩
    refine ⟨p, hp, ?_⟩
    rw [if_pos ⟨h1, by simp [strVal, h2, h3]⟩]
    exact h2

lemma acceptCall_of_invalid {req : AcceptRequest} (env : AcceptEnv)
    (h : acceptFieldsPresent req = false) :
    acceptCall req env =
      { response := .badRequest "callId, acceptedByDeviceId, currentUid, token, and channel are all required.",
        activeCall := env.activeCall, devices := env.devices,
        transitionAttempted := false, committed := false,
        directoryRead := false, dispatched := none,
        dispatchThrewSwallowed := false } := by
  simp [acceptCall, h]

lemma acceptCall_of_valid {req : AcceptRequest} (env : AcceptEnv)
    (h : acceptFieldsPresent req = true) :
    acceptCall req env =
      acceptCallValidated (strVal req.callId) (strVal req.acceptedByDeviceId)
        (strVal req.token) (strVal req.channel) env := by
  simp [acceptCall, h]

lemma acceptCallValidated_of_abort {callId dev : String} (token channel : String)
    {env : AcceptEnv}
    (h : acceptTransactionCallback callId dev env.activeCall = none) :
    acceptCallValidated callId dev token channel env =
      { response := .conflict (conflictMessage env.activeCall),
        activeCall := env.activeCall, devices := env.devices,
        transitionAttempted := true, committed := false,
        directoryRead := false, dispatched := none,
        dispatchThrewSwallowed := false } := by
  simp [acceptCallValidated, runTransaction_of_none h]

lemma acceptCallValidated_of_commit {callId dev : String} (token channel : String)
    {env : AcceptEnv} {d : CallRecord}
    (h : acceptTransactionCallback callId dev env.activeCall = some d)
    (hd : env.directoryReadFails = false) :
    acceptCallValidated callId dev token channel env =
      { response := .acceptOk "Call accepted successfully" callId token channel dev,
        activeCall := some d, devices := env.devices,
        transitionAttempted := true, committed := true, directoryRead := true,
        dispatched :=
          if (stopRingingTargets env.devices dev).isEmpty then none
          else some { data := { type := "ring_ended", callId := callId,
                                acceptedByDeviceId := dev },
                      tokens := stopRingingTargets env.devices dev },
        dispatchThrewSwallowed :=
          !(stopRingingTargets env.devices dev).isEmpty && env.dispatchThrows } := by
  simp only [acceptCallValidated, runTransaction_of_some h, hd, Bool.false_eq_true,
    if_false, if_true]
  by_cases ht : (stopRingingTargets env.devices dev).isEmpty
  · simp [ht]
  · simp [ht]

lemma acceptCallValidated_of_commit_readFail {callId dev : String} (token channel : String)
    {env : AcceptEnv} {d : CallRecord}
    (h : acceptTransactionCallback callId dev env.activeCall = some d)
    (hd : env.directoryReadFails = true) :
    acceptCallValidated callId dev token channel env =
      { response := .serverError "Internal server error during call acceptance",
        activeCall := some d, devices := env.devices,
        transitionAttempted := true, committed := true, directoryRead := true,
        dispatched := none, dispatchThrewSwallowed := false } := by
  simp [acceptCallValidated, runTransaction_of_some h, hd]

lemma acceptCall_commit_shape {req : AcceptRequest} {env : AcceptEnv}
    (h : (acceptCall req env).committed = true) :
    acceptFieldsPresent req = true ∧
      ∃ rec, env.activeCall = some rec ∧ rec.callId = strVal req.callId ∧
        rec.status = "ringing" ∧
        (acceptCall req env).activeCall =
          some { rec with status := "in_progress",
                          acceptedByDeviceId := some (strVal req.acceptedByDeviceId) } := by
  by_cases hv : acceptFieldsPresent req = true
  · refine ⟨hv, ?_⟩
    rw [acceptCall_of_valid env hv] at h ⊢
    cases hcb : acceptTransactionCallback (strVal req.callId)
        (strVal req.acceptedByDeviceId) env.activeCall with
    | none =>
      rw [acceptCallValidated_of_abort _ _ hcb] at h
      simp at h
    | some d =>
      obtain ⟨rec, hrec, h1, h2, hdval⟩ := callback_eq_some hcb
      refine ⟨rec, hrec, h1, h2, ?_⟩
      cases hd : env.directoryReadFails with
      | false => rw [acceptCallValidated_of_commit _ _ hcb hd, hdval]
      | true => rw [acceptCallValidated_of_commit_readFail _ _ hcb hd, hdval]
  · rw [acceptCall_of_invalid env (by simpa using hv)] at h
    simp at h

lemma callback_of_notRinging {rec : CallRecord} (h : rec.status ≠ "ringing")
    (cid dev : String) : acceptTransactionCallback cid dev (some rec) = none := by
  by_cases hc : rec.callId ≠ cid
  · simp [acceptTransactionCallback, hc]
  · simp [acceptTransactionCallback, hc, h]

/-- C2: the conditional transition for a requested `callId` aborts — reporting
not committed and leaving the stored record unchanged — exactly when the
record is absent, or the stored `callId` differs from the requested one, or
the stored `status` is not `"ringing"`; in every other case it commits. -/
theorem transition_abort_iff (callId dev : String) (store : Option CallRecord) :
    ((runTransaction (acceptTransactionCallback callId dev) store).1.committed = false ↔
      (store = none ∨
        ∃ rec, store = some rec ∧ (rec.callId ≠ callId ∨ rec.status ≠ "ringing"))) ∧
    ((runTransaction (acceptTransactionCallback callId dev) store).1.committed = false →
      (runTransaction (acceptTransactionCallback callId dev) store).2 = store) := by
  cases hcb : acceptTransactionCallback callId dev store with
  | none =>
    rw [runTransaction_of_none hcb]
    exact ⟨by simpa using callback_eq_none_iff.mp hcb, fun _ => rfl⟩
  | some d =>
    rw [runTransaction_of_some hcb]
    have habort : ¬(store = none ∨
        ∃ rec, store = some rec ∧ (rec.callId ≠ callId ∨ rec.status ≠ "ringing")) := by
      intro hab
      rw [← @callback_eq_none_iff callId dev store] at hab
      rw [hcb] at hab
      cases hab
    exact ⟨by simpa using habort, by simp⟩

/-- Witness for C2: a request with a stale `callId` against a ringing record
aborts and leaves the store unchanged. -/
theorem transition_abort_iff_witness :
    (runTransaction (acceptTransactionCallback "c2" "d1")
        (some ⟨"c1", "ringing", none, []⟩)).1.committed = false ∧
    (runTransaction (acceptTransactionCallback "c2" "d1")
        (some ⟨"c1", "ringing", none, []⟩)).2 = some ⟨"c1", "ringing", none, []⟩ := by
  have h := transition_abort_iff "c2" "d1" (some ⟨"c1", "ringing", none, []⟩)
  have h1 := h.1.mpr (Or.inr ⟨⟨"c1", "ringing", none, []⟩, rfl, Or.inl (by decide)⟩)
  exact ⟨h1, h.2 h1⟩

/-- C7: a request in which any of the five fields is missing (falsy) is
answered 400 with the validation message, and nothing else happens: the
transition is never attempted, the directory is never read, the store is
untouched and nothing is dispatched. -/
theorem validation_stops_everything (req : AcceptRequest) (env : AcceptEnv)
    (h : strVal req.callId = "" ∨ strVal req.acceptedByDeviceId = "" ∨
      strVal req.currentUid = "" ∨ strVal req.token = "" ∨ strVal req.channel = "") :
    (acceptCall req env).response =
      .badRequest "callId, acceptedByDeviceId, currentUid, token, and channel are all required." ∧
    (acceptCall req env).response.statusCode = 400 ∧
    (acceptCall req env).transitionAttempted = false ∧
    (acceptCall req env).directoryRead = false ∧
    (acceptCall req env).activeCall = env.activeCall ∧
    (acceptCall req env).dispatched = none := by
  have hfp : acceptFieldsPresent req = false := by
    rcases h with h | h | h | h | h <;> simp [acceptFieldsPresent, h]
  rw [acceptCall_of_invalid env hfp]
  exact ⟨rfl, rfl, rfl, rfl, rfl, rfl⟩

/-- Witness for C7: a request missing `token` is rejected with 400 and no
side effect. -/
theorem validation_stops_everything_witness :
    (strVal (some "c1") = "" ∨ strVal (some "d1") = "" ∨ strVal (some "u1") = "" ∨
      strVal (none : Option String) = "" ∨ strVal (some "ch1") = "") ∧
    ((acceptCall ⟨some "c1", some "d1", some "u1", none, some "ch1"⟩
        ⟨some ⟨"c1", "ringing", none, []⟩, none, false, false⟩).response =
      .badRequest "callId, acceptedByDeviceId, currentUid, token, and channel are all required." ∧
    (acceptCall ⟨some "c1", some "d1", some "u1", none, some "ch1"⟩
        ⟨some ⟨"c1", "ringing", none, []⟩, none, false, false⟩).response.statusCode = 400 ∧
    (acceptCall ⟨some "c1", some "d1", some "u1", none, some "ch1"⟩
        ⟨some ⟨"c1", "ringing", none, []⟩, none, false, false⟩).transitionAttempted = false ∧
    (acceptCall ⟨some "c1", some "d1", some "u1", none, some "ch1"⟩
        ⟨some ⟨"c1", "ringing", none, []⟩, none, false, false⟩).directoryRead = false ∧
    (acceptCall ⟨some "c1", some "d1", some "u1", none, some "ch1"⟩
        ⟨some ⟨"c1", "ringing", none, []⟩, none, false, false⟩).activeCall =
      (⟨some ⟨"c1", "ringing", none, []⟩, none, false, false⟩ : AcceptEnv).activeCall ∧
    (acceptCall ⟨some "c1", some "d1", some "u1", none, some "ch1"⟩
        ⟨some ⟨"c1", "ringing", none, []⟩, none, false, false⟩).dispatched = none) :=
  ⟨by decide,
   validation_stops_everything ⟨some "c1", some "d1", some "u1", none, some "ch1"⟩
     ⟨some ⟨"c1", "ringing", none, []⟩, none, false, false⟩ (by decide)⟩

/-- C6: a committing transition changes only `status` (to `"in_progress"`)
and `acceptedByDeviceId` (to the requester); `callId` and every other field
of the record are unchanged, and the handler never writes the device
directory. -/
theorem commit_frame :
    (∀ (callId dev : String) (rec d : CallRecord),
        acceptTransactionCallback callId dev (some rec) = some d →
        d.status = "in_progress" ∧ d.acceptedByDeviceId = some dev ∧
        d.callId = rec.callId ∧ d.extra = rec.extra) ∧
    (∀ (req : AcceptRequest) (env : AcceptEnv),
        (acceptCall req env).devices = env.devices) := by
  constructor
  · intro callId dev rec d h
    obtain ⟨rec0, hrec0, _, _, hd⟩ := callback_eq_some h
    have hr : rec0 = rec := by
      injection hrec0 with hr
      exact hr.symm
    subst hr
    subst hd
    exact ⟨rfl, rfl, rfl, rfl⟩
  · intro req env
    by_cases hv : acceptFieldsPresent req = true
    · rw [acceptCall_of_valid env hv]
      cases hcb : acceptTransactionCallback (strVal req.callId)
          (strVal req.acceptedByDeviceId) env.activeCall with
      | none => rw [acceptCallValidated_of_abort _ _ hcb]
      | some d =>
        cases hd : env.directoryReadFails with
        | false => rw [acceptCallValidated_of_commit _ _ hcb hd]
        | true => rw [acceptCallValidated_of_commit_readFail _ _ hcb hd]
    · rw [acceptCall_of_invalid env (by simpa using hv)]

/-- Witness for C6: an accepted record keeps its `callId` and extra fields. -/
theorem commit_frame_witness :
    acceptTransactionCallback "c1" "d1" (some ⟨"c1", "ringing", none, [("x", "1")]⟩) =
      some ⟨"c1", "in_progress", some "d1", [("x", "1")]⟩ ∧
    ((⟨"c1", "in_progress", some "d1", [("x", "1")]⟩ : CallRecord).status = "in_progress" ∧
     (⟨"c1", "in_progress", some "d1", [("x", "1")]⟩ : CallRecord).acceptedByDeviceId = some "d1" ∧
     (⟨"c1", "in_progress", some "d1", [("x", "1")]⟩ : CallRecord).callId =
       (⟨"c1", "ringing", none, [("x", "1")]⟩ : CallRecord).callId ∧
     (⟨"c1", "in_progress", some "d1", [("x", "1")]⟩ : CallRecord).extra =
       (⟨"c1", "ringing", none, [("x", "1")]⟩ : CallRecord).extra) :=
  ⟨by decide,
   commit_frame.1 "c1" "d1" ⟨"c1", "ringing", none, [("x", "1")]⟩
     ⟨"c1", "in_progress", some "d1", [("x", "1")]⟩ (by decide)⟩

/-- C1: once an accept has committed (so the stored record shows
`in_progress`), every later accept attempt against the resulting store —
any device, any `callId`, including a retry by the same device — does not
commit, leaves the record unchanged, and is answered 409 with the
already-accepted message; `acceptedByDeviceId` is never overwritten. -/
theorem accept_at_most_once (req1 req2 : AcceptRequest) (env1 env2 : AcceptEnv)
    (h1 : (acceptCall req1 env1).committed = true)
    (h2 : env2.activeCall = (acceptCall req1 env1).activeCall)
    (hv : acceptFieldsPresent req2 = true) :
    (acceptCall req2 env2).committed = false ∧
    (acceptCall req2 env2).activeCall = (acceptCall req1 env1).activeCall ∧
    (acceptCall req2 env2).response = .conflict "Call already accepted by another device." ∧
    (acceptCall req2 env2).response.statusCode = 409 := by
  obtain ⟨_, rec, _, _, _, hpost⟩ := acceptCall_commit_shape h1
  have hcb : acceptTransactionCallback (strVal req2.callId)
      (strVal req2.acceptedByDeviceId) env2.activeCall = none := by
    rw [h2, hpost]
    exact callback_of_notRinging (by simp) _ _
  rw [acceptCall_of_valid env2 hv, acceptCallValidated_of_abort _ _ hcb, h2, hpost]
  refine ⟨rfl, rfl, ?_, rfl⟩
  simp [conflictMessage]

/-- Witness for C1: after `d1` accepts, a retry of the same request is a 409
and the record stays accepted by `d1`. -/
theorem accept_at_most_once_witness :
    (acceptCall ⟨some "c1", some "d1", some "u1", some "t1", some "ch1"⟩
        ⟨some ⟨"c1", "ringing", none, []⟩, none, false, false⟩).committed = true ∧
    (⟨some ⟨"c1", "in_progress", some "d1", []⟩, none, false, false⟩ : AcceptEnv).activeCall =
      (acceptCall ⟨some "c1", some "d1", some "u1", some "t1", some "ch1"⟩
        ⟨some ⟨"c1", "ringing", none, []⟩, none, false, false⟩).activeCall ∧
    acceptFieldsPresent ⟨some "c1", some "d1", some "u1", some "t1", some "ch1"⟩ = true ∧
    ((acceptCall ⟨some "c1", some "d1", some "u1", some "t1", some "ch1"⟩
        ⟨some ⟨"c1", "in_progress", some "d1", []⟩, none, false, false⟩).committed = false ∧
     (acceptCall ⟨some "c1", some "d1", some "u1", some "t1", some "ch1"⟩
        ⟨some ⟨"c1", "in_progress", some "d1", []⟩, none, false, false⟩).activeCall =
       (acceptCall ⟨some "c1", some "d1", some "u1", some "t1", some "ch1"⟩
        ⟨some ⟨"c1", "ringing", none, []⟩, none, false, false⟩).activeCall ∧
     (acceptCall ⟨some "c1", some "d1", some "u1", some "t1", some "ch1"⟩
        ⟨some ⟨"c1", "in_progress", some "d1", []⟩, none, false, false⟩).response =
       .conflict "Call already accepted by another device." ∧
     (acceptCall ⟨some "c1", some "d1", some "u1", some "t1", some "ch1"⟩
        ⟨some ⟨"c1", "in_progress", some "d1", []⟩, none, false, false⟩).response.statusCode = 409) :=
  ⟨by decide, by decide, by decide,
   accept_at_most_once ⟨some "c1", some "d1", some "u1", some "t1", some "ch1"⟩
     ⟨some "c1", some "d1", some "u1", some "t1", some "ch1"⟩
     ⟨some ⟨"c1", "ringing", none, []⟩, none, false, false⟩
     ⟨some ⟨"c1", "in_progress", some "d1", []⟩, none, false, false⟩
     (by decide) (by decide) (by decide)⟩

/-- C3: every valid request whose transition does not commit is answered 409
with the message chosen from the record observed after the aborted attempt —
the already-accepted message when it exists with `status = "in_progress"`,
the inactive-or-invalid message in every other case — and produces no
mutation, no directory read and no dispatch. -/
theorem conflict_responses (req : AcceptRequest) (env : AcceptEnv)
    (hv : acceptFieldsPresent req = true)
    (hna : (acceptCall req env).committed = false) :
    (acceptCall req env).response = .conflict (conflictMessage env.activeCall) ∧
    (acceptCall req env).response.statusCode = 409 ∧
    ((∃ rec, env.activeCall = some rec ∧ rec.status = "in_progress") →
      conflictMessage env.activeCall = "Call already accepted by another device.") ∧
    ((∀ rec, env.activeCall = some rec → rec.status ≠ "in_progress") →
      conflictMessage env.activeCall = "Call no longer active or invalid call ID.") ∧
    (acceptCall req env).activeCall = env.activeCall ∧
    (acceptCall req env).directoryRead = false ∧
    (acceptCall req env).dispatched = none := by
  rw [acceptCall_of_valid env hv] at hna ⊢
  cases hcb : acceptTransactionCallback (strVal req.callId)
      (strVal req.acceptedByDeviceId) env.activeCall with
  | some d =>
    exfalso
    cases hd : env.directoryReadFails with
    | false =>
      rw [acceptCallValidated_of_commit _ _ hcb hd] at hna
      simp at hna
    | true =>
      rw [acceptCallValidated_of_commit_readFail _ _ hcb hd] at hna
      simp at hna
  | none =>
    rw [acceptCallValidated_of_abort _ _ hcb]
    refine ⟨rfl, rfl, ?_, ?_, rfl, rfl, rfl⟩
    · rintro ⟨rec, hrec, hst⟩
      simp [conflictMessage, hrec, hst]
    · intro hall
      cases henv : env.activeCall with
      | none => simp [conflictMessage]
      | some rec => simp [conflictMessage, hall rec henv]

/-- Witness for C3: a valid accept against a record whose `callId` is stale
(and not in progress) aborts and reports the inactive-or-invalid message. -/
theorem conflict_responses_witness :
    acceptFieldsPresent ⟨some "c9", some "d1", some "u1", some "t1", some "ch1"⟩ = true ∧
    (acceptCall ⟨some "c9", some "d1", some "u1", some "t1", some "ch1"⟩
        ⟨some ⟨"c1", "ringing", none, []⟩, none, false, false⟩).committed = false ∧
    ((acceptCall ⟨some "c9", some "d1", some "u1", some "t1", some "ch1"⟩
        ⟨some ⟨"c1", "ringing", none, []⟩, none, false, false⟩).response =
      .conflict (conflictMessage
        (⟨some ⟨"c1", "ringing", none, []⟩, none, false, false⟩ : AcceptEnv).activeCall) ∧
     (acceptCall ⟨some "c9", some "d1", some "u1", some "t1", some "ch1"⟩
        ⟨some ⟨"c1", "ringing", none, []⟩, none, false, false⟩).response.statusCode = 409 ∧
     ((∃ rec, (⟨some ⟨"c1", "ringing", none, []⟩, none, false, false⟩ : AcceptEnv).activeCall =
         some rec ∧ rec.status = "in_progress") →
       conflictMessage (⟨some ⟨"c1", "ringing", none, []⟩, none, false, false⟩ :
         AcceptEnv).activeCall = "Call already accepted by another device.") ∧
     ((∀ rec, (⟨some ⟨"c1", "ringing", none, []⟩, none, false, false⟩ : AcceptEnv).activeCall =
         some rec → rec.status ≠ "in_progress") →
       conflictMessage (⟨some ⟨"c1", "ringing", none, []⟩, none, false, false⟩ :
         AcceptEnv).activeCall = "Call no longer active or invalid call ID.") ∧
     (acceptCall ⟨some "c9", some "d1", some "u1", some "t1", some "ch1"⟩
        ⟨some ⟨"c1", "ringing", none, []⟩, none, false, false⟩).activeCall =
       (⟨some ⟨"c1", "ringing", none, []⟩, none, false, false⟩ : AcceptEnv).activeCall ∧
     (acceptCall ⟨some "c9", some "d1", some "u1", some "t1", some "ch1"⟩
        ⟨some ⟨"c1", "ringing", none, []⟩, none, false, false⟩).directoryRead = false ∧
     (acceptCall ⟨some "c9", some "d1", some "u1", some "t1", some "ch1"⟩
        ⟨some ⟨"c1", "ringing", none, []⟩, none, false, false⟩).dispatched = none) :=
  ⟨by decide, by decide,
   conflict_responses ⟨some "c9", some "d1", some "u1", some "t1", some "ch1"⟩
     ⟨some ⟨"c1", "ringing", none, []⟩, none, false, false⟩ (by decide) (by decide)⟩

/-- C4 counterexample: a request whose transition commits but whose
directory read (a step between commit and dispatch, inside the outer
try/catch only) fails is answered 500, not 200 — the claim that every
post-commit failure is swallowed is false at this input. -/
theorem commit_response_counterexample :
    (acceptCall ⟨some "c1", some "d1", some "u1", some "t1", some "ch1"⟩
        ⟨some ⟨"c1", "ringing", none, []⟩, none, true, false⟩).committed = true ∧
    (acceptCall ⟨some "c1", some "d1", some "u1", some "t1", some "ch1"⟩
        ⟨some ⟨"c1", "ringing", none, []⟩, none, true, false⟩).response =
      .serverError "Internal server error during call acceptance" ∧
    (acceptCall ⟨some "c1", some "d1", some "u1", some "t1", some "ch1"⟩
        ⟨some ⟨"c1", "ringing", none, []⟩, none, true, false⟩).response.statusCode = 500 := by
  decide

/-- C4 amended: when the transition commits and the directory read does not
fail, the response is the 200 success carrying `callId`, the passthrough
`token` and `channel`, and `acceptedByDeviceId` — whether or not the
stop-ringing dispatch throws (its failure is swallowed by the inner
try/catch). -/
theorem commit_response_honored (req : AcceptRequest) (env : AcceptEnv) (b : Bool)
    (hc : (acceptCall req env).committed = true)
    (hd : env.directoryReadFails = false) :
    (acceptCall req { env with dispatchThrows := b }).response =
      .acceptOk "Call accepted successfully" (strVal req.callId) (strVal req.token)
        (strVal req.channel) (strVal req.acceptedByDeviceId) ∧
    (acceptCall req { env with dispatchThrows := b }).response.statusCode = 200 ∧
    (acceptCall req { env with dispatchThrows := b }).committed = true := by
  obtain ⟨hv, rec, hrec, h1, h2, _⟩ := acceptCall_commit_shape hc
  have hcb : acceptTransactionCallback (strVal req.callId)
      (strVal req.acceptedByDeviceId) ({ env with dispatchThrows := b } : AcceptEnv).activeCall =
      some { rec with status := "in_progress",
                      acceptedByDeviceId := some (strVal req.acceptedByDeviceId) } := by
    show acceptTransactionCallback _ _ env.activeCall = _
    rw [hrec]
    exact callback_commits h1 h2
  have hdf : ({ env with dispatchThrows := b } : AcceptEnv).directoryReadFails = false := hd
  rw [acceptCall_of_valid _ hv, acceptCallValidated_of_commit _ _ hcb hdf]
  exact ⟨rfl, rfl, rfl⟩

/-- Witness for the amended C4: a committing accept with a throwing dispatch
still gets the 200 success response. -/
theorem commit_response_honored_witness :
    (acceptCall ⟨some "c1", some "d1", some "u1", some "t1", some "ch1"⟩
        ⟨some ⟨"c1", "ringing", none, []⟩,
         some [("d1", ⟨some "t1", []⟩), ("d2", ⟨some "t2", []⟩)], false, false⟩).committed = true ∧
    (⟨some ⟨"c1", "ringing", none, []⟩,
      some [("d1", ⟨some "t1", []⟩), ("d2", ⟨some "t2", []⟩)], false, false⟩ :
        AcceptEnv).directoryReadFails = false ∧
    ((acceptCall ⟨some "c1", some "d1", some "u1", some "t1", some "ch1"⟩
        { (⟨some ⟨"c1", "ringing", none, []⟩,
           some [("d1", ⟨some "t1", []⟩), ("d2", ⟨some "t2", []⟩)], false, false⟩ : AcceptEnv)
          with dispatchThrows := true }).response =
      .acceptOk "Call accepted successfully" (strVal (some "c1")) (strVal (some "t1"))
        (strVal (some "ch1")) (strVal (some "d1")) ∧
     (acceptCall ⟨some "c1", some "d1", some "u1", some "t1", some "ch1"⟩
        { (⟨some ⟨"c1", "ringing", none, []⟩,
           some [("d1", ⟨some "t1", []⟩), ("d2", ⟨some "t2", []⟩)], false, false⟩ : AcceptEnv)
          with dispatchThrows := true }).response.statusCode = 200 ∧
     (acceptCall ⟨some "c1", some "d1", some "u1", some "t1", some "ch1"⟩
        { (⟨some ⟨"c1", "ringing", none, []⟩,
           some [("d1", ⟨some "t1", []⟩), ("d2", ⟨some "t2", []⟩)], false, false⟩ : AcceptEnv)
          with dispatchThrows := true }).committed = true) :=
  ⟨by decide, by decide,
   commit_response_honored ⟨some "c1", some "d1", some "u1", some "t1", some "ch1"⟩
     ⟨some ⟨"c1", "ringing", none, []⟩,
      some [("d1", ⟨some "t1", []⟩), ("d2", ⟨some "t2", []⟩)], false, false⟩ true
     (by decide) (by decide)⟩

/-- C5: for a committed accept (with the directory read succeeding), the
fan-out token list contains exactly the `fcmToken` values of directory
entries whose key differs from `acceptedByDeviceId` and whose token is
truthy; the dispatched message carries exactly that list, and no dispatch
is made when the list is empty or the directory is absent. -/
theorem fanout_targets_exact (req : AcceptRequest) (env : AcceptEnv)
    (hc : (acceptCall req env).committed = true)
    (hd : env.directoryReadFails = false) :
    (∀ t, t ∈ stopRingingTargets env.devices (strVal req.acceptedByDeviceId) ↔
       ∃ ds, env.devices = some ds ∧ ∃ p ∈ ds,
         p.1 ≠ strVal req.acceptedByDeviceId ∧ p.2.fcmToken = some t ∧ t ≠ "") ∧
    (acceptCall req env).dispatched =
      (if (stopRingingTargets env.devices (strVal req.acceptedByDeviceId)).isEmpty then none
       else some { data := { type := "ring_ended", callId := strVal req.callId,
                             acceptedByDeviceId := strVal req.acceptedByDeviceId },
                   tokens := stopRingingTargets env.devices (strVal req.acceptedByDeviceId) }) := by
  obtain ⟨hv, rec, hrec, h1, h2, _⟩ := acceptCall_commit_shape hc
  have hcb : acceptTransactionCallback (strVal req.callId)
      (strVal req.acceptedByDeviceId) env.activeCall =
      some { rec with status := "in_progress",
                      acceptedByDeviceId := some (strVal req.acceptedByDeviceId) } := by
    rw [hrec]
    exact callback_commits h1 h2
  constructor
  · intro t
    cases henv : env.devices with
    | none => simp [stopRingingTargets]
    | some ds =>
      rw [show stopRingingTargets (some ds) (strVal req.acceptedByDeviceId) =
            fcmTokensToNotify ds (strVal req.acceptedByDeviceId) from rfl]
      rw [mem_fcmTokensToNotify]
      simp
  · rw [acceptCall_of_valid env hv, acceptCallValidated_of_commit _ _ hcb hd]

/-- Witness for C5 (scenario E): directory `d1`/`t1`, `d2`/`t2`, `d3`
token-less, accepted by `d1` — `"t2"` is targeted and the dispatched
message carries exactly the target list. -/
theorem fanout_targets_exact_witness :
    (acceptCall ⟨some "c1", some "d1", some "u1", some "t1", some "ch1"⟩
        ⟨some ⟨"c1", "ringing", none, []⟩,
         some [("d1", ⟨some "t1", []⟩), ("d2", ⟨some "t2", []⟩), ("d3", ⟨none, []⟩)],
         false, false⟩).committed = true ∧
    (⟨some ⟨"c1", "ringing", none, []⟩,
      some [("d1", ⟨some "t1", []⟩), ("d2", ⟨some "t2", []⟩), ("d3", ⟨none, []⟩)],
      false, false⟩ : AcceptEnv).directoryReadFails = false ∧
    ("t2" ∈ stopRingingTargets
        (⟨some ⟨"c1", "ringing", none, []⟩,
          some [("d1", ⟨some "t1", []⟩), ("d2", ⟨some "t2", []⟩), ("d3", ⟨none, []⟩)],
          false, false⟩ : AcceptEnv).devices
        (strVal (some "d1")) ↔
      ∃ ds, (⟨some ⟨"c1", "ringing", none, []⟩,
          some [("d1", ⟨some "t1", []⟩), ("d2", ⟨some "t2", []⟩), ("d3", ⟨none, []⟩)],
          false, false⟩ : AcceptEnv).devices = some ds ∧ ∃ p ∈ ds,
        p.1 ≠ strVal (some "d1") ∧ p.2.fcmToken = some "t2" ∧ "t2" ≠ "") ∧
    (acceptCall ⟨some "c1", some "d1", some "u1", some "t1", some "ch1"⟩
        ⟨some ⟨"c1", "ringing", none, []⟩,
         some [("d1", ⟨some "t1", []⟩), ("d2", ⟨some "t2", []⟩), ("d3", ⟨none, []⟩)],
         false, false⟩).dispatched =
      (if (stopRingingTargets
            (⟨some ⟨"c1", "ringing", none, []⟩,
              some [("d1", ⟨some "t1", []⟩), ("d2", ⟨some "t2", []⟩), ("d3", ⟨none, []⟩)],
              false, false⟩ : AcceptEnv).devices (strVal (some "d1"))).isEmpty then none
       else some { data := { type := "ring_ended", callId := strVal (some "c1"),
                             acceptedByDeviceId := strVal (some "d1") },
                   tokens := stopRingingTargets
                     (⟨some ⟨"c1", "ringing", none, []⟩,
                       some [("d1", ⟨some "t1", []⟩), ("d2", ⟨some "t2", []⟩), ("d3", ⟨none, []⟩)],
                       false, false⟩ : AcceptEnv).devices (strVal (some "d1")) }) :=
  ⟨by decide, by decide,
   (fanout_targets_exact ⟨some "c1", some "d1", some "u1", some "t1", some "ch1"⟩
     ⟨some ⟨"c1", "ringing", none, []⟩,
      some [("d1", ⟨some "t1", []⟩), ("d2", ⟨some "t2", []⟩), ("d3", ⟨none, []⟩)],
      false, false⟩ (by decide) (by decide)).1 "t2",
   (fanout_targets_exact ⟨some "c1", some "d1", some "u1", some "t1", some "ch1"⟩
     ⟨some ⟨"c1", "ringing", none, []⟩,
      some [("d1", ⟨some "t1", []⟩), ("d2", ⟨some "t2", []⟩), ("d3", ⟨none, []⟩)],
      false, false⟩ (by decide) (by decide)).2⟩

lemma acceptCallValidated_dispatched_indep (callId dev t1 c1 t2 c2 : String)
    (env : AcceptEnv) :
    (acceptCallValidated callId dev t1 c1 env).dispatched =
      (acceptCallValidated callId dev t2 c2 env).dispatched := by
  cases hcb : acceptTransactionCallback callId dev env.activeCall with
  | none => rw [acceptCallValidated_of_abort t1 c1 hcb, acceptCallValidated_of_abort t2 c2 hcb]
  | some d =>
    cases hd : env.directoryReadFails with
    | false =>
      rw [acceptCallValidated_of_commit t1 c1 hcb hd,
        acceptCallValidated_of_commit t2 c2 hcb hd]
    | true =>
      rw [acceptCallValidated_of_commit_readFail t1 c1 hcb hd,
        acceptCallValidated_of_commit_readFail t2 c2 hcb hd]

/-- C10: the `ring_ended` message depends only on `callId` and
`acceptedByDeviceId` — two valid requests differing only in `token` and
`channel` dispatch the identical message, and any dispatched message's data
is exactly `type = "ring_ended"`, the `callId` and the accepting device. -/
theorem ring_ended_noninterference (req : AcceptRequest) (env : AcceptEnv)
    (t c : String) (hv : acceptFieldsPresent req = true)
    (ht : t ≠ "") (hc : c ≠ "") :
    (acceptCall { req with token := some t, channel := some c } env).dispatched =
      (acceptCall req env).dispatched ∧
    (∀ msg, (acceptCall req env).dispatched = some msg →
      msg.data = { type := "ring_ended", callId := strVal req.callId,
                   acceptedByDeviceId := strVal req.acceptedByDeviceId }) := by
  have hv' : acceptFieldsPresent { req with token := some t, channel := some c } = true := by
    simp only [acceptFieldsPresent, Bool.and_eq_true] at hv ⊢
    exact ⟨⟨⟨⟨hv.1.1.1.1, hv.1.1.1.2⟩, hv.1.1.2⟩, by simpa [strVal] using ht⟩,
      by simpa [strVal] using hc⟩
  constructor
  · rw [acceptCall_of_valid env hv, acceptCall_of_valid env hv']
    exact acceptCallValidated_dispatched_indep _ _ _ _ _ _ env
  · intro msg hmsg
    rw [acceptCall_of_valid env hv] at hmsg
    cases hcb : acceptTransactionCallback (strVal req.callId)
        (strVal req.acceptedByDeviceId) env.activeCall with
    | none =>
      rw [acceptCallValidated_of_abort _ _ hcb] at hmsg
      simp at hmsg
    | some d =>
      cases hd : env.directoryReadFails with
      | true =>
        rw [acceptCallValidated_of_commit_readFail _ _ hcb hd] at hmsg
        simp at hmsg
      | false =>
        rw [acceptCallValidated_of_commit _ _ hcb hd] at hmsg
        by_cases hemp : (stopRingingTargets env.devices (strVal req.acceptedByDeviceId)).isEmpty
        · simp [hemp] at hmsg
        · simp only [hemp, Bool.false_eq_true, if_false, Option.some_inj] at hmsg
          rw [← hmsg]

/-- Witness for C10: changing only `token`/`channel` leaves the dispatched
`ring_ended` message unchanged, and its data names the call and acceptor. -/
theorem ring_ended_noninterference_witness :
    acceptFieldsPresent ⟨some "c1", some "d1", some "u1", some "t1", some "ch1"⟩ = true ∧
    ("t9" : String) ≠ "" ∧ ("ch9" : String) ≠ "" ∧
    ((acceptCall { (⟨some "c1", some "d1", some "u1", some "t1", some "ch1"⟩ : AcceptRequest)
          with token := some "t9", channel := some "ch9" }
        ⟨some ⟨"c1", "ringing", none, []⟩,
         some [("d1", ⟨some "t1", []⟩), ("d2", ⟨some "t2", []⟩)], false, false⟩).dispatched =
      (acceptCall ⟨some "c1", some "d1", some "u1", some "t1", some "ch1"⟩
        ⟨some ⟨"c1", "ringing", none, []⟩,
         some [("d1", ⟨some "t1", []⟩), ("d2", ⟨some "t2", []⟩)], false, false⟩).dispatched ∧
     (∀ msg, (acceptCall ⟨some "c1", some "d1", some "u1", some "t1", some "ch1"⟩
        ⟨some ⟨"c1", "ringing", none, []⟩,
         some [("d1", ⟨some "t1", []⟩), ("d2", ⟨some "t2", []⟩)], false, false⟩).dispatched =
          some msg →
       msg.data = { type := "ring_ended", callId := strVal (some "c1"),
                    acceptedByDeviceId := strVal (some "d1") })) :=
  ⟨by decide, by decide, by decide,
   ring_ended_noninterference ⟨some "c1", some "d1", some "u1", some "t1", some "ch1"⟩
     ⟨some ⟨"c1", "ringing", none, []⟩,
      some [("d1", ⟨some "t1", []⟩), ("d2", ⟨some "t2", []⟩)], false, false⟩
     "t9" "ch9" (by decide) (by decide) (by decide)⟩

/-- C8: a valid `/sendRingingNotification` request whose dispatch returns
per-token outcomes containing at least one failure is still answered 200,
with `successCount` the number of succeeded tokens, `failureCount` the
number of failed tokens (here positive) and the per-token details; only a
dispatcher throw is answered 500. -/
theorem ringing_mixed_outcomes (req : RingingRequest) (toks : List String)
    (responses : List Bool) (e : String)
    (htk : req.fcmTokens = some toks) (hne : toks ≠ [])
    (h1 : strVal req.callerId ≠ "") (h2 : strVal req.callId ≠ "")
    (h3 : strVal req.type ≠ "") (h4 : strVal req.channel ≠ "")
    (h5 : strVal req.token ≠ "") (hf : false ∈ responses) :
    (sendRingingNotification req (Except.ok responses)).response =
      .ringingOk "Ringing notifications sent successfully" (responses.count true)
        (responses.count false) responses ∧
    (sendRingingNotification req (Except.ok responses)).response.statusCode = 200 ∧
    0 < responses.count false ∧
    (sendRingingNotification req (Except.error e)).response =
      .serverError "Failed to send ringing notifications" e ∧
    (sendRingingNotification req (Except.error e)).response.statusCode = 500 := by
  have hie : ¬(toks.isEmpty = true) := by
    cases toks with
    | nil => exact absurd rfl hne
    | cons a l => simp
  have hvc : ¬(strVal req.callerId = "" ∨ strVal req.callId = "" ∨ strVal req.type = "" ∨
      strVal req.channel = "" ∨ strVal req.token = "") := by
    simp [h1, h2, h3, h4, h5]
  have hok : sendRingingNotification req (Except.ok responses) =
      ⟨.ringingOk "Ringing notifications sent successfully"
          (responses.count true) (responses.count false) responses,
        some ⟨⟨strVal req.type, strVal req.callerId, strVal req.callId,
          strVal req.channel, strVal req.token⟩, toks⟩⟩ := by
    simp only [sendRingingNotification, htk]
    rw [if_neg hie, if_neg hvc]
  have herr : sendRingingNotification req (Except.error e) =
      ⟨.serverError "Failed to send ringing notifications" e,
        some ⟨⟨strVal req.type, strVal req.callerId, strVal req.callId,
          strVal req.channel, strVal req.token⟩, toks⟩⟩ := by
    simp only [sendRingingNotification, htk]
    rw [if_neg hie, if_neg hvc]
  have hcount : 0 < responses.count false := by
    refine Nat.pos_of_ne_zero fun h0 => ?_
    exact (List.count_eq_zero.mp h0) hf
  rw [hok, herr]
  exact ⟨rfl, rfl, hcount, rfl, rfl⟩

/-- Witness for C8: tokens `tA`, `tB` with outcomes success and failure
still yield a 200 with `failureCount = 1`. -/
theorem ringing_mixed_outcomes_witness :
    (⟨some ["tA", "tB"], some "caller1", some "c1", some "incoming_call", some "ch1",
        some "t1"⟩ : RingingRequest).fcmTokens = some ["tA", "tB"] ∧
    (["tA", "tB"] : List String) ≠ [] ∧ false ∈ [true, false] ∧
    ((sendRingingNotification
        ⟨some ["tA", "tB"], some "caller1", some "c1", some "incoming_call", some "ch1",
          some "t1"⟩ (Except.ok [true, false])).response =
      .ringingOk "Ringing notifications sent successfully" ([true, false].count true)
        ([true, false].count false) [true, false] ∧
     (sendRingingNotification
        ⟨some ["tA", "tB"], some "caller1", some "c1", some "incoming_call", some "ch1",
          some "t1"⟩ (Except.ok [true, false])).response.statusCode = 200 ∧
     0 < [true, false].count false ∧
     (sendRingingNotification
        ⟨some ["tA", "tB"], some "caller1", some "c1", some "incoming_call", some "ch1",
          some "t1"⟩ (Except.error "boom")).response =
       .serverError "Failed to send ringing notifications" "boom" ∧
     (sendRingingNotification
        ⟨some ["tA", "tB"], some "caller1", some "c1", some "incoming_call", some "ch1",
          some "t1"⟩ (Except.error "boom")).response.statusCode = 500) :=
  ⟨rfl, by decide, by decide,
   ringing_mixed_outcomes
     ⟨some ["tA", "tB"], some "caller1", some "c1", some "incoming_call", some "ch1",
       some "t1"⟩ ["tA", "tB"] [true, false] "boom" rfl (by decide) (by decide)
     (by decide) (by decide) (by decide) (by decide) (by decide)⟩

/-- C9: a `/sendRingingNotification` request whose `fcmTokens` is absent,
not an array (modelled as `none`) or empty is answered 400 and nothing is
dispatched — whereas in the accept path an empty stop-ringing target list
is a silent no-op under an otherwise successful 200. -/
theorem empty_tokens_rejected (req : RingingRequest) (d : DispatchResult)
    (h : req.fcmTokens = none ∨ req.fcmTokens = some []) :
    (sendRingingNotification req d).response =
      .badRequest "fcmTokens (array) is required and must not be empty" ∧
    (sendRingingNotification req d).response.statusCode = 400 ∧
    (sendRingingNotification req d).dispatched = none ∧
    (∀ (req2 : AcceptRequest) (env : AcceptEnv),
      (acceptCall req2 env).committed = true → env.directoryReadFails = false →
      stopRingingTargets env.devices (strVal req2.acceptedByDeviceId) = [] →
      (acceptCall req2 env).dispatched = none ∧
      (acceptCall req2 env).response.statusCode = 200) := by
  have hshape : sendRingingNotification req d =
      { response := .badRequest "fcmTokens (array) is required and must not be empty",
        dispatched := none } := by
    rcases h with h | h <;> simp [sendRingingNotification, h]
  rw [hshape]
  refine ⟨rfl, rfl, rfl, ?_⟩
  intro req2 env hc hd htgt
  obtain ⟨hv, rec, hrec, h1, h2, _⟩ := acceptCall_commit_shape hc
  have hcb : acceptTransactionCallback (strVal req2.callId)
      (strVal req2.acceptedByDeviceId) env.activeCall =
      some { rec with status := "in_progress",
                      acceptedByDeviceId := some (strVal req2.acceptedByDeviceId) } := by
    rw [hrec]
    exact callback_commits h1 h2
  rw [acceptCall_of_valid env hv, acceptCallValidated_of_commit _ _ hcb hd]
  exact ⟨by simp [htgt], rfl⟩

/-- Witness for C9: an empty `fcmTokens` array is a 400 with no dispatch. -/
theorem empty_tokens_rejected_witness :
    ((⟨some [], some "caller1", some "c1", some "incoming_call", some "ch1",
        some "t1"⟩ : RingingRequest).fcmTokens = none ∨
      (⟨some [], some "caller1", some "c1", some "incoming_call", some "ch1",
        some "t1"⟩ : RingingRequest).fcmTokens = some []) ∧
    ((sendRingingNotification
        ⟨some [], some "caller1", some "c1", some "incoming_call", some "ch1", some "t1"⟩
        (Except.ok [])).response =
      .badRequest "fcmTokens (array) is required and must not be empty" ∧
     (sendRingingNotification
        ⟨some [], some "caller1", some "c1", some "incoming_call", some "ch1", some "t1"⟩
        (Except.ok [])).response.statusCode = 400 ∧
     (sendRingingNotification
        ⟨some [], some "caller1", some "c1", some "incoming_call", some "ch1", some "t1"⟩
        (Except.ok [])).dispatched = none ∧
     (∀ (req2 : AcceptRequest) (env : AcceptEnv),
       (acceptCall req2 env).committed = true → env.directoryReadFails = false →
       stopRingingTargets env.devices (strVal req2.acceptedByDeviceId) = [] →
       (acceptCall req2 env).dispatched = none ∧
       (acceptCall req2 env).response.statusCode = 200)) :=
  ⟨Or.inr rfl,
   empty_tokens_rejected
     ⟨some [], some "caller1", some "c1", some "incoming_call", some "ch1", some "t1"⟩
     (Except.ok []) (Or.inr rfl)⟩

end Signal
